import Mathlib

/-!
Verification of the AFL scraping/normalization core of footybets-ai.

Shallow embedding of:
  backend/scrape_afl_data.py            (scrape_afl_data_to_database)
  backend/app/scrapers/afltables_results.py
      (_parse_results_table, _extract_result_details, _has_valid_scores,
       _deduplicate_games)
  backend/app/scrapers/afl_scraper.py
      (parse_season_page, _parse_game_rows, _parse_stat,
       _scrape_season, scrape_multiple_seasons)

HTML rows/cells are modelled by the text and anchors the scrapers inspect.
Machine integers are Int/Nat (Python ints are unbounded, no overflow).
Python truthiness on round numbers (None and 0 are falsy) is modelled
explicitly wherever the source tests a bare value.

The afltables-side database writers (save_results_to_db,
_save_game_to_db, _save_player_stats_to_db, save_upcoming_games_to_db)
address a Game/PlayerGameStats schema that app/models does not define
(Game.round, string home_team/away_team, winner, attendance,
jumper_number, hit_outs, free_kicks_for, ...); on the current models
their key queries and constructors raise before touching any row, so
they are embedded as failure paths, not as database transformers — see
the GameRow section. The scrape_afl_data persistence, whose columns
match the models, is embedded in full.
-/

namespace FootyBets

/-- Numeric value of a list of decimal digit characters (most significant
first), as produced by the Python int() of a digits-only string. -/
def digitsVal (cs : List Char) : Nat :=
  cs.foldl (fun a c => a * 10 + (c.toNat - 48)) 0

/-- Python str.isdigit: nonempty and every character a decimal digit. -/
def isDigitString (s : String) : Bool :=
  !s.toList.isEmpty && s.toList.all Char.isDigit

/-- Does the character list start with the given pattern? -/
def startsWithChars : List Char → List Char → Bool
  | [], _ => true
  | _ :: _, [] => false
  | p :: ps, c :: cs => p == c && startsWithChars ps cs

/-- Python substring containment (pat in s). -/
def containsChars (pat : List Char) : List Char → Bool
  | [] => startsWithChars pat []
  | c :: cs => startsWithChars pat (c :: cs) || containsChars pat cs

/-- re.search of a literal pattern followed by a greedy digit group:
first position where the pattern occurs immediately followed by at least
one digit; returns the digit group's value. Used for the source's
patterns such as Round followed by a space and digits. -/
def numAfterPat (pat : List Char) : List Char → Option Nat
  | [] => none
  | c :: cs =>
    if startsWithChars pat (c :: cs) then
      let ds := ((c :: cs).drop pat.length).takeWhile Char.isDigit
      if ds.isEmpty then numAfterPat pat cs else some (digitsVal ds)
    else numAfterPat pat cs

/-- The pattern of the source regex Round (backslash-d+): the literal
word Round, a space, then digits. -/
def roundPat : List Char := 'R' :: 'o' :: 'u' :: 'n' :: 'd' :: ' ' :: []

/-- Python truthiness of an optional int: None and 0 are falsy. -/
def truthyOpt : Option Int → Bool
  | none => false
  | some n => n != 0

/-!
## Round Normalizer (backend/scrape_afl_data.py lines 61-68)

    original_round = game.get('round')
    if season in [2024, 2025] and original_round:
        game['round'] = original_round - 1

The truthiness test means a raw round of 0 (and a missing round) is left
unchanged.
-/

/-- The round normalization applied by scrape_afl_data_to_database to a raw
round value, as a pure function on ints. -/
def normalize_round (season : Int) (r : Int) : Int :=
  if (season = 2024 ∨ season = 2025) ∧ r ≠ 0 then r - 1 else r

/-!
## DOM fragments

A Cell models one td/th element: its stripped text, the texts of its
anchors whose href contains teams/ (in document order), and the href of
its first anchor carrying any href. A Row models one tr element: its
cells plus the text of the whole row (row.get_text()).
-/

structure Cell where
  text : String
  teamAnchors : List String
  anchorHref : Option String
deriving DecidableEq, Repr

structure Row where
  cells : List Cell
  text : String
deriving DecidableEq, Repr

/-- row.find of an anchor whose href contains teams/ : text of the first
team anchor in the row, in document order. -/
def Row.teamLink (r : Row) : Option String :=
  ((r.cells.map Cell.teamAnchors).flatten).head?

/-- len(table.find_all(a, href containing teams/)) for a table given as
its list of rows. -/
def tableTeamLinks (t : List Row) : Nat :=
  ((t.map (fun r => ((r.cells.map (fun c => c.teamAnchors.length)).sum))).sum)

/-!
## Score extraction (afltables_results._extract_result_details, lines 179-210)

For each side the code scans the row's cells in order; in a cell it first
searches the regex of three dot-separated digit groups and takes the third
group as the total, else accepts a digits-only text of length at most 3 as
a bare total; the first cell producing a value wins, otherwise the side's
score stays None.
-/

/-- Match the dotted-triple score regex at the start of the character
list: digits, a dot, digits, a dot, digits, each group greedy. Returns
(goals, behinds, total). -/
def tripleAt (cs : List Char) : Option (Nat × Nat × Nat) :=
  let d1 := cs.takeWhile Char.isDigit
  if d1.isEmpty then none else
  match cs.dropWhile Char.isDigit with
  | '.' :: r2 =>
    let d2 := r2.takeWhile Char.isDigit
    if d2.isEmpty then none else
    match r2.dropWhile Char.isDigit with
    | '.' :: r4 =>
      let d3 := r4.takeWhile Char.isDigit
      if d3.isEmpty then none
      else some (digitsVal d1, digitsVal d2, digitsVal d3)
    | _ => none
  | _ => none

/-- re.search of the dotted-triple score regex: leftmost match. -/
def searchTriple : List Char → Option (Nat × Nat × Nat)
  | [] => none
  | c :: cs =>
    match tripleAt (c :: cs) with
    | some t => some t
    | none => searchTriple cs

/-- Score value extracted from one cell's text: dotted triple first
(total authoritative), else a digits-only text of at most 3 characters. -/
def score_from_cell (s : String) : Option Nat :=
  match searchTriple s.toList with
  | some (_, _, t) => some t
  | none =>
    if isDigitString s && decide (s.length ≤ 3) then some (digitsVal s.toList)
    else none

/-- One side's score from a row's cell texts: first cell that yields a
value wins; no cell yields one, the side stays None. -/
def extract_side_score : List String → Option Nat
  | [] => none
  | c :: rest =>
    match score_from_cell c with
    | some t => some t
    | none => extract_side_score rest

/-!
## Provisional results games (afltables_results)
-/

/-- A provisional game dict built by _extract_result_details and completed
by _parse_results_table. game_date, venue, attendance and winner are also
extracted by the source but are not consulted by any property here. -/
structure RGame where
  season : Int
  round : Option Int
  home_team : String
  away_team : String
  home_score : Option Nat
  away_score : Option Nat
  is_finished : Bool
deriving DecidableEq, Repr

/-- _extract_result_details: the fields of the returned dict that the
properties concern. The round falls back to a Round-number text match in
the home then the away row when the carried round is falsy. -/
def extract_result_details (homeRow awayRow : Row) (season : Int)
    (roundNum : Option Int) : RGame :=
  let hs := extract_side_score (homeRow.cells.map Cell.text)
  let as_ := extract_side_score (awayRow.cells.map Cell.text)
  let rnd :=
    if truthyOpt roundNum then roundNum
    else
      match numAfterPat roundPat homeRow.text.toList with
      | some n => some (Int.ofNat n)
      | none =>
        match numAfterPat roundPat awayRow.text.toList with
        | some n => some (Int.ofNat n)
        | none => roundNum
  { season := season, round := rnd, home_team := "", away_team := "",
    home_score := hs, away_score := as_, is_finished := false }

/-- _has_valid_scores: both sides present (parsed naturals are always
nonnegative ints). -/
def hasValidScores (g : RGame) : Bool :=
  g.home_score.isSome && g.away_score.isSome

/-- _parse_results_table (lines 128-161): scan rows top to bottom; a row
with a team link is the candidate home row; it pairs with the immediately
following row only when that row also has a team link (then the scan skips
both rows); otherwise the scan advances one row. -/
def parse_results_table (season : Int) (roundNum : Option Int) :
    List Row → List RGame
  | [] => []
  | r :: rest =>
    match r.teamLink with
    | none => parse_results_table season roundNum rest
    | some home =>
      match rest with
      | [] => []
      | r2 :: rest2 =>
        match r2.teamLink with
        | some away =>
          let d := extract_result_details r r2 season roundNum
          if hasValidScores d then
            { d with home_team := home, away_team := away, is_finished := true }
              :: parse_results_table season roundNum rest2
          else parse_results_table season roundNum rest2
        | none => parse_results_table season roundNum (r2 :: rest2)

/-!
## Dedup by natural key (afltables_results._deduplicate_games, lines 289-306)

    key = (home_team, away_team, round, season)
    if key not in seen and all(key): keep

all(key) is Python truthiness of every component: an empty team name, a
round of None or 0, and a season of 0 all fail the test.
-/

/-- The natural key tuple built by _deduplicate_games. -/
abbrev GKey := String × String × Option Int × Int

def keyOf (g : RGame) : GKey := (g.home_team, g.away_team, g.round, g.season)

/-- Python all(key): every key component truthy. -/
def truthyKey (g : RGame) : Bool :=
  g.home_team != "" && g.away_team != "" && truthyOpt g.round && g.season != 0

def dedupAux : List RGame → List GKey → List RGame
  | [], _ => []
  | g :: gs, seen =>
    if truthyKey g ∧ keyOf g ∉ seen then g :: dedupAux gs (keyOf g :: seen)
    else dedupAux gs seen

/-- _deduplicate_games: first record with a complete (all-truthy) key
wins; later records with the same key, and records failing the key test,
are discarded. -/
def deduplicate_games (gs : List RGame) : List RGame := dedupAux gs []

/-!
## Season-page games (afl_scraper.parse_season_page and _parse_game_rows)
-/

/-- A provisional game dict built by _parse_game_rows. venue and game_date
are also extracted by the source but are not consulted by any property
here. Scores are plain ints defaulting to 0 in this scraper. -/
structure SGame where
  home_team : String
  away_team : String
  home_score : Nat
  away_score : Nat
  season : Int
  round : Option Int
  stats_link : Option String
  game_id : String
deriving DecidableEq, Repr

def baseUrl : String := "https://afltables.com/afl"

/-- int(text) if text.isdigit() else 0 — the per-cell score coercion of
_parse_game_rows (lines 457-462). -/
def parse_score_text (s : String) : Nat :=
  if isDigitString s then digitsVal s.toList else 0

/-- f-string game id with a truthy round number. -/
def gameIdWithRound (season : Int) (rn : Int) (home away : String) : String :=
  s!"{season}_r{rn}_{home}_{away}"

/-- f-string game id when the round number is falsy (None or 0). -/
def gameIdNoRound (season : Int) (home away : String) : String :=
  s!"{season}_{home}_{away}"

def mkGameId (season : Int) (rn : Option Int) (home away : String) : String :=
  if truthyOpt rn then
    gameIdWithRound season (rn.getD 0) home away
  else gameIdNoRound season home away

/-- Match the regex of a slash, one or two digits (greedy), a slash, at
the start of the character list. Two digits are tried first; on failure a
single digit followed by a slash. -/
def twoDigitSlashAt : List Char → Option Nat
  | '/' :: a :: b :: c :: _ =>
    if a.isDigit then
      if b.isDigit then (if c = '/' then some (digitsVal [a, b]) else none)
      else if b = '/' then some (digitsVal [a]) else none
    else none
  | '/' :: a :: b :: [] =>
    if a.isDigit && b == '/' then some (digitsVal [a]) else none
  | _ => none

/-- re.search of the slash-digits-slash regex: leftmost match. Used to
re-derive a round number from a stats-link path. -/
def searchTwoDigitSlash : List Char → Option Nat
  | [] => none
  | c :: cs =>
    match twoDigitSlashAt (c :: cs) with
    | some n => some n
    | none => searchTwoDigitSlash cs

/-- href with a leading ../ stripped. -/
def stripDotDot (s : String) : String :=
  if startsWithChars ('.' :: '.' :: '/' :: []) s.toList then
    String.mk (s.toList.drop 3)
  else s

/-- First team anchor of the first cell (home_cells[0] / away_cells[0]). -/
def cellTeam : List Cell → Option String
  | [] => none
  | c :: _ => c.teamAnchors.head?

/-- Text of cells[2]. -/
def thirdCellText (cs : List Cell) : String :=
  ((cs.drop 2).head?.map Cell.text).getD ""

/-- Text of the last cell (cells[-1]). -/
def lastCellText (cs : List Cell) : String :=
  (cs.getLast?.map Cell.text).getD ""

/-- Href of the first anchor of the last cell (cells[-1].find(a, href)). -/
def lastCellHref (cs : List Cell) : Option String :=
  cs.getLast?.bind Cell.anchorHref

/-- _parse_game_rows (lines 434-523): two rows form a game when both have
at least 4 cells and a team anchor in their first cell and the team names
differ. Scores come from the third cell coerced with parse_score_text.
The round prefers the carried hint, else one embedded in the stats-link
path, else a Round-number text match in the away row's last cell; the
hint tests use Python truthiness, so a hint of 0 is treated as absent. -/
def parse_game_rows (homeCells awayCells : List Cell) (season : Int)
    (roundHint : Option Int) : Option SGame :=
  if homeCells.length < 4 ∨ awayCells.length < 4 then none
  else
    match cellTeam homeCells, cellTeam awayCells with
    | some home, some away =>
      if home = away then none
      else
        let hs := parse_score_text (thirdCellText homeCells)
        let as_ := parse_score_text (thirdCellText awayCells)
        let details := lastCellText awayCells
        let sl :=
          match lastCellHref awayCells with
          | some href =>
            if containsChars "stats/games".toList href.toList then
              let href2 := stripDotDot href
              let link := baseUrl ++ "/" ++ href2
              let r :=
                if truthyOpt roundHint then roundHint
                else
                  match searchTwoDigitSlash href2.toList with
                  | some n => some (Int.ofNat n)
                  | none => roundHint
              (some link, r)
            else (none, roundHint)
          | none => (none, roundHint)
        let r2 :=
          if truthyOpt sl.2 then sl.2
          else
            match numAfterPat roundPat details.toList with
            | some n => some (Int.ofNat n)
            | none => sl.2
        some { home_team := home, away_team := away,
               home_score := hs, away_score := as_,
               season := season, round := r2, stats_link := sl.1,
               game_id := mkGameId season r2 home away }
    | _, _ => none

/-- parse_season_page pairing (lines 407-415): rows of a qualifying table
are consumed at fixed offsets (0,1), (2,3), ...; an unpaired trailing row
is dropped. -/
def pairRows (season : Int) (cur : Option Int) : List Row → List SGame
  | h :: a :: rest =>
    (match parse_game_rows h.cells a.cells season cur with
     | some g => g :: pairRows season cur rest
     | none => pairRows season cur rest)
  | _ => []

/-- parse_season_page table loop (lines 389-415): a table whose first row
text matches a Round-number pattern updates the carried round and is
skipped; a table with at least two team links yields games from its row
pairs. (processed_tables is keyed by object identity, which is distinct
for each table in the list, so it never suppresses a table.) -/
def parse_season_tables (season : Int) : List (List Row) → Option Int → List SGame
  | [], _ => []
  | t :: ts, cur =>
    match t with
    | [] => parse_season_tables season ts cur
    | firstRow :: _ =>
      match
        (if containsChars "Round".toList firstRow.text.toList then
          numAfterPat roundPat firstRow.text.toList
         else none) with
      | some n => parse_season_tables season ts (some (Int.ofNat n))
      | none =>
        if 2 ≤ tableTeamLinks t then
          pairRows season cur t ++ parse_season_tables season ts cur
        else parse_season_tables season ts cur

/-- parse_season_page dedup (lines 417-427): unique by the game_id string,
first record wins; only an empty game_id is dropped. -/
def dedup_by_game_id : List SGame → List String → List SGame
  | [], _ => []
  | g :: gs, seen =>
    if g.game_id ≠ "" ∧ g.game_id ∉ seen then
      g :: dedup_by_game_id gs (g.game_id :: seen)
    else dedup_by_game_id gs seen

/-- parse_season_page on a fetched season page given as its tables. -/
def parse_season_page_games (season : Int) (tables : List (List Row)) : List SGame :=
  dedup_by_game_id (parse_season_tables season tables none) []

/-!
## Box-score stat coercion (afl_scraper._parse_stat, lines 711-719)
-/

/-- Python str.strip(): leading and trailing whitespace removed. -/
def stripChars (cs : List Char) : List Char :=
  ((cs.dropWhile Char.isWhitespace).reverse.dropWhile Char.isWhitespace).reverse

/-- Python int() on a stripped string: an optional sign followed by at
least one digit parses to its value, anything else raises (None here). -/
def pyInt? : List Char → Option Int
  | [] => none
  | '-' :: rest =>
    if !rest.isEmpty && rest.all Char.isDigit then
      some (-(digitsVal rest : Int))
    else none
  | '+' :: rest =>
    if !rest.isEmpty && rest.all Char.isDigit then
      some ((digitsVal rest : Int))
    else none
  | c :: rest =>
    if (c :: rest).all Char.isDigit then some ((digitsVal (c :: rest) : Int))
    else none

/-- _parse_stat: strip the cell text; a nonempty text other than the
literal entity string goes through int(), whose ValueError is caught and
mapped to 0; everything else is 0. -/
def parse_stat (s : String) : Int :=
  if stripChars s.toList ≠ [] ∧ stripChars s.toList ≠ "&nbsp;".toList then
    match pyInt? (stripChars s.toList) with
    | some n => n
    | none => 0
  else 0

/-!
## scrape_afl_data_to_database: completed-game filter and Round-0 fix
(backend/scrape_afl_data.py lines 57-70)
-/

structure GameRow where
  season : Int
  round : Option Int
  home_team : String
  away_team : String
  home_score : Option Nat
  away_score : Option Nat
  is_finished : Bool
  winner : Option String
deriving DecidableEq, Repr

/-- The writes AFLScraper._save_game_to_db (lines 875-914) attempts,
against the schema that function presupposes (string team names, a round
column): the first row matching (home_team, away_team, round,
season=year) has its scores overwritten unconditionally; is_finished is
never touched on update; a new row is inserted with the column default
is_finished=False. On the actual Game model the key query at lines
879-884 raises (Game.round does not exist) before any of this executes,
so the function writes nothing and its season fails; nothing proved here
about the real program rests on this would-be upsert — it only gives the
success branch of the _scrape_season model its meaning. -/
def save_game_to_db : List GameRow → SGame → Int → List GameRow
  | [], g, year =>
    [{ season := year, round := g.round,
       home_team := g.home_team, away_team := g.away_team,
       home_score := some g.home_score, away_score := some g.away_score,
       is_finished := false, winner := none }]
  | row :: rows, g, year =>
    if row.home_team == g.home_team && row.away_team == g.away_team &&
       row.round == g.round && row.season == year then
      { row with home_score := some g.home_score,
                 away_score := some g.away_score } :: rows
    else row :: save_game_to_db rows g year

structure PStat where
  name : String
  jumper_number : String
  kicks : Int
  marks : Int
  handballs : Int
  disposals : Int
  goals : Int
  behinds : Int
  hit_outs : Int
  tackles : Int
  rebound_50s : Int
  inside_50s : Int
  clearances : Int
  clangers : Int
  free_kicks_for : Int
  free_kicks_against : Int
  brownlow_votes : Int
  contested_possessions : Int
  uncontested_possessions : Int
  contested_marks : Int
  marks_inside_50 : Int
  one_percenters : Int
  bounces : Int
  goal_assists : Int
  percentage_played : Int
deriving DecidableEq

/-- The row AFLScraper._save_player_stats_to_db (lines 916-962) tries to
construct. Its keyword columns (team, jumper_number, hit_outs,
free_kicks_for/against, brownlow_votes, contested_marks, marks_inside_50,
one_percenters, bounces, goal_assists, percentage_played) do not exist on
the PlayerGameStats model (app/models/player.py has team_id, hitouts,
frees_for/frees_against and none of the rest), so on the current schema
the constructor raises TypeError at the first player and no row is ever
inserted; the raise fails the season. The structure records the fields as
the function passes them, for the success branch of the _scrape_season
model only. -/
structure ScrStatsRow where
  game : GKey
  player : String
  team : String
  jumper_number : String
  kicks : Int
  marks : Int
  handballs : Int
  disposals : Int
  goals : Int
  behinds : Int
  hit_outs : Int
  tackles : Int
  rebound_50s : Int
  inside_50s : Int
  clearances : Int
  clangers : Int
  free_kicks_for : Int
  free_kicks_against : Int
  brownlow_votes : Int
  contested_possessions : Int
  uncontested_possessions : Int
  contested_marks : Int
  marks_inside_50 : Int
  one_percenters : Int
  bounces : Int
  goal_assists : Int
  percentage_played : Int
deriving DecidableEq

def mkScrStatsRow (game : GKey) (team : String) (p : PStat) : ScrStatsRow :=
  { game := game, player := p.name, team := team,
    jumper_number := p.jumper_number,
    kicks := p.kicks, marks := p.marks, handballs := p.handballs,
    disposals := p.disposals, goals := p.goals, behinds := p.behinds,
    hit_outs := p.hit_outs, tackles := p.tackles,
    rebound_50s := p.rebound_50s, inside_50s := p.inside_50s,
    clearances := p.clearances, clangers := p.clangers,
    free_kicks_for := p.free_kicks_for,
    free_kicks_against := p.free_kicks_against,
    brownlow_votes := p.brownlow_votes,
    contested_possessions := p.contested_possessions,
    uncontested_possessions := p.uncontested_possessions,
    contested_marks := p.contested_marks,
    marks_inside_50 := p.marks_inside_50,
    one_percenters := p.one_percenters, bounces := p.bounces,
    goal_assists := p.goal_assists,
    percentage_played := p.percentage_played }

/-- The inserts AFLScraper._save_player_stats_to_db attempts: every
parsed player of every team is added as a fresh row — there is no
existence check. On the current PlayerGameStats model the constructor
raises instead (see ScrStatsRow), so in the real program these inserts
never happen; the definition only gives the success branch of the
_scrape_season model its meaning and no claim rests on it. -/
def save_player_stats_to_db (db : List ScrStatsRow) (game : GKey)
    (stats : List (String × List PStat)) : List ScrStatsRow :=
  db ++ (stats.map (fun tp => tp.2.map (mkScrStatsRow game tp.1))).flatten

structure SDb where
  games : List GameRow
  stats : List ScrStatsRow
deriving DecidableEq

/-- The body of _scrape_season's per-game loop (lines 833-845): save or
update the game, then fetch and save its player stats when the game_id is
truthy and the stats parse succeeds. -/
def scrape_season_step (statsOf : String → Option (List (String × List PStat)))
    (year : Int) (db : SDb) (g : SGame) : SDb :=
  let games2 := save_game_to_db db.games g year
  if g.game_id ≠ "" then
    match statsOf g.game_id with
    | some ts =>
      { games := games2,
        stats := save_player_stats_to_db db.stats
          (g.home_team, g.away_team, g.round, year) ts }
    | none => { games := games2, stats := db.stats }
  else { games := games2, stats := db.stats }

/-- _scrape_season (lines 809-873): a failed season page, or any database
exception during the season's writes (which are rolled back), yields a
failure with the database unchanged; otherwise all the season's writes are
committed together. Returns the database and a success flag. -/
def scrape_season (pages : Int → Option (List SGame))
    (statsOf : String → Option (List (String × List PStat)))
    (dbFail : Int → Bool) (db : SDb) (year : Int) : SDb × Bool :=
  match pages year with
  | none => (db, false)
  | some games =>
    if dbFail year then (db, false)
    else (games.foldl (scrape_season_step statsOf year) db, true)

/-- Python range(start, end + 1). -/
def yearRange (startY endY : Int) : List Int :=
  (List.range (endY + 1 - startY).toNat).map (fun i => startY + Int.ofNat i)

/-- The run summary of scrape_multiple_seasons: season_details years and
errors years, in processing order. -/
structure RunResults where
  processed : List Int
  failed : List Int
deriving DecidableEq, Repr

/-- scrape_multiple_seasons (lines 721-807): every year of the range is
attempted in order; a successful season accumulates into season_details, a
failed one into errors, and the loop always continues to the next year. -/
def scrape_multiple_seasons (pages : Int → Option (List SGame))
    (statsOf : String → Option (List (String × List PStat)))
    (dbFail : Int → Bool) (db : SDb) (startY endY : Int) : SDb × RunResults :=
  (yearRange startY endY).foldl
    (fun acc y =>
      let r := scrape_season pages statsOf dbFail acc.1 y
      if r.2 then (r.1, { acc.2 with processed := acc.2.processed ++ [y] })
      else (r.1, { acc.2 with failed := acc.2.failed ++ [y] }))
    (db, ⟨[], []⟩)

/-- Whether a season's scrape succeeds, given the oracles. -/
def seasonOk (pages : Int → Option (List SGame)) (dbFail : Int → Bool)
    (y : Int) : Bool :=
  (pages y).isSome && !dbFail y

/-- The committed effect of one successful season on the database. -/
def applySeason (pages : Int → Option (List SGame))
    (statsOf : String → Option (List (String × List PStat)))
    (db : SDb) (y : Int) : SDb :=
  match pages y with
  | some games => games.foldl (scrape_season_step statsOf y) db
  | none => db

/-!
# Properties

## Deduplication by natural key
-/

theorem dedupAux_subset_truthy {gs : List RGame} {seen : List GKey} {g : RGame}
    (h : g ∈ dedupAux gs seen) : g ∈ gs ∧ truthyKey g = true := by
  induction gs generalizing seen with
  | nil => simp [dedupAux] at h
  | cons a gs ih =>
    rw [dedupAux] at h
    split at h
    · rcases List.mem_cons.mp h with h1 | h1
      · subst h1
        exact ⟨by simp, by tauto⟩
      · have := ih h1
        exact ⟨List.mem_cons_of_mem a this.1, this.2⟩
    · have := ih h
      exact ⟨List.mem_cons_of_mem a this.1, this.2⟩

theorem dedupAux_keys_fresh {gs : List RGame} {seen : List GKey} {g : RGame}
    (h : g ∈ dedupAux gs seen) : keyOf g ∉ seen := by
  induction gs generalizing seen with
  | nil => simp [dedupAux] at h
  | cons a gs ih =>
    rw [dedupAux] at h
    split at h
    · rcases List.mem_cons.mp h with h1 | h1
      · subst h1; tauto
      · intro hmem
        exact ih h1 (List.mem_cons_of_mem _ hmem)
    · exact ih h

theorem dedupAux_keys_nodup (gs : List RGame) (seen : List GKey) :
    ((dedupAux gs seen).map keyOf).Nodup := by
  induction gs generalizing seen with
  | nil => simp [dedupAux]
  | cons a gs ih =>
    rw [dedupAux]
    split
    · refine List.nodup_cons.mpr ⟨?_, ih _⟩
      intro hmem
      rcases List.mem_map.mp hmem with ⟨g, hg, hkey⟩
      exact dedupAux_keys_fresh hg (by rw [hkey]; exact List.mem_cons_self _ _)
    · exact ih _

theorem dedupAux_find? (gs : List RGame) (seen : List GKey) (k : GKey)
    (hk : k ∉ seen) :
    (dedupAux gs seen).find? (fun g => decide (keyOf g = k))
      = gs.find? (fun g => truthyKey g && decide (keyOf g = k)) := by
  induction gs generalizing seen with
  | nil => rfl
  | cons a gs ih =>
    by_cases hc : truthyKey a = true ∧ keyOf a ∉ seen
    · rw [show dedupAux (a :: gs) seen = a :: dedupAux gs (keyOf a :: seen) from by
        rw [dedupAux]; simp only [if_pos hc]]
      by_cases hak : keyOf a = k
      · rw [List.find?_cons_of_pos _ (by simp [hak]),
          List.find?_cons_of_pos _ (by simp [hak, hc.1])]
      · rw [List.find?_cons_of_neg _ (by simp [hak]),
          List.find?_cons_of_neg _ (by simp [hak])]
        refine ih (keyOf a :: seen) ?_
        intro hmem
        rcases List.mem_cons.mp hmem with h1 | h1
        · exact hak h1.symm
        · exact hk h1
    · rw [show dedupAux (a :: gs) seen = dedupAux gs seen from by
        rw [dedupAux]; simp only [if_neg hc]]
      rw [List.find?_cons_of_neg, ih seen hk]
      by_cases ht : truthyKey a = true
      · have : keyOf a ∈ seen := by
          by_contra hns
          exact hc ⟨ht, hns⟩
        have : keyOf a ≠ k := fun h => hk (h ▸ this)
        simp [this]
      · simp [ht]

theorem dedupAux_covers {gs : List RGame} {seen : List GKey} {g : RGame}
    (hg : g ∈ gs) (ht : truthyKey g = true) (hs : keyOf g ∉ seen) :
    ∃ g', g' ∈ dedupAux gs seen ∧ keyOf g' = keyOf g := by
  have hfind : (gs.find? (fun x => truthyKey x && decide (keyOf x = keyOf g))).isSome := by
    rw [List.find?_isSome]
    exact ⟨g, hg, by simp [ht]⟩
  rw [← dedupAux_find? gs seen (keyOf g) hs] at hfind
  rcases Option.isSome_iff_exists.mp hfind with ⟨g', hg'⟩
  refine ⟨g', List.mem_of_find?_eq_some hg', ?_⟩
  have := List.find?_some hg'
  simpa using this

/-- C2 (amended): _deduplicate_games emits pairwise-distinct natural
keys; every emitted record is an input record passing the all-truthy key
test; every input record passing the test is represented by exactly one
emitted record with its key, namely the first such input record (the
find? law); and every record failing the key test is dropped entirely. -/
theorem dedup_one_record_per_key (gs : List RGame) :
    ((deduplicate_games gs).map keyOf).Nodup
    ∧ (∀ g, g ∈ deduplicate_games gs → g ∈ gs ∧ truthyKey g = true)
    ∧ (∀ g, g ∈ gs → truthyKey g = true →
        ∃ g', g' ∈ deduplicate_games gs ∧ keyOf g' = keyOf g)
    ∧ (∀ g, truthyKey g = false → g ∉ deduplicate_games gs)
    ∧ (∀ k, (deduplicate_games gs).find? (fun g => decide (keyOf g = k))
        = gs.find? (fun g => truthyKey g && decide (keyOf g = k))) := by
  refine ⟨dedupAux_keys_nodup gs [], fun g h => dedupAux_subset_truthy h,
    fun g hg ht => dedupAux_covers hg ht (List.not_mem_nil _),
    fun g hf hmem => ?_,
    fun k => dedupAux_find? gs [] k (List.not_mem_nil _)⟩
  have := (dedupAux_subset_truthy hmem).2
  rw [hf] at this
  exact Bool.false_ne_true this

/-- A finished provisional result game used as concrete input. -/
def rgameA : RGame :=
  { season := 2024, round := some 5, home_team := "Essendon",
    away_team := "Richmond", home_score := some 100, away_score := some 81,
    is_finished := true }

/-- A later duplicate of rgameA's natural key with different scores. -/
def rgameB : RGame :=
  { rgameA with home_score := some 90, away_score := some 95 }

/-- Witness for dedup_one_record_per_key at a concrete duplicate pair. -/
theorem dedup_one_record_per_key_witness :
    ∃ g', g' ∈ deduplicate_games [rgameA, rgameB] ∧ keyOf g' = keyOf rgameB :=
  (dedup_one_record_per_key [rgameA, rgameB]).2.2.1 rgameB (by simp) (by decide)

/-- C10: a provisional game whose round is 0, or whose home or away team
name is empty, fails the Python all(key) truthiness test and is excluded
from the dedup output, even though such a key is not missing. -/
theorem dedup_drops_falsy_components (gs : List RGame) (g : RGame)
    (_hg : g ∈ gs)
    (h : g.round = some 0 ∨ g.home_team = "" ∨ g.away_team = "") :
    g ∉ deduplicate_games gs := by
  intro hmem
  have ht := (dedupAux_subset_truthy hmem).2
  rcases h with h | h | h <;> simp [truthyKey, truthyOpt, h] at ht

/-- A result game with a complete but falsy key: round 0. -/
def rgameRound0 : RGame := { rgameA with round := some 0 }

/-- Witness for dedup_drops_falsy_components: the round-0 game is dropped. -/
theorem dedup_drops_falsy_components_witness :
    rgameRound0 ∉ deduplicate_games [rgameRound0] :=
  dedup_drops_falsy_components [rgameRound0] rgameRound0 (by simp)
    (Or.inl rfl)

/-!
## Round normalization arithmetic
-/

/-- C8 counterexample: for the non-adjusted season 2023 at raw round 1 the
difference normalize(2023, 1) - normalize(2023, 2) is -1, not the 0 the
claim asserts for seasons without the Round-0 adjustment. -/
theorem normalize_diff_counterexample :
    normalize_round 2023 1 - normalize_round 2023 2 = -1
    ∧ ¬((2023 : Int) = 2024 ∨ (2023 : Int) = 2025)
    ∧ (-1 : Int) ≠ 0 := by
  refine ⟨by decide, by decide, by decide⟩

/-- C8 (amended): for every season and every raw round at least 1, the
adjacent difference normalize(s, r) - normalize(s, r + 1) is -1 for all
seasons alike; the quantity that distinguishes Round-0 seasons is
normalize(s, r) - r, which is -1 for 2024/2025 and 0 otherwise. -/
theorem normalize_adjacent_difference (s r : Int) (hr : 1 ≤ r) :
    normalize_round s r - normalize_round s (r + 1) = -1
    ∧ normalize_round s r - r = (if s = 2024 ∨ s = 2025 then -1 else 0) := by
  have h1 : r ≠ 0 := by omega
  have h2 : r + 1 ≠ 0 := by omega
  unfold normalize_round
  by_cases hs : s = 2024 ∨ s = 2025
  · rw [if_pos ⟨hs, h1⟩, if_pos ⟨hs, h2⟩, if_pos hs]
    constructor <;> omega
  · rw [if_neg (by tauto), if_neg (by tauto), if_neg hs]
    constructor <;> omega

/-- Witness for normalize_adjacent_difference at season 2024, round 3. -/
theorem normalize_adjacent_difference_witness :
    normalize_round 2024 3 - normalize_round 2024 4 = -1
    ∧ normalize_round 2024 3 - 3
        = (if (2024 : Int) = 2024 ∨ (2024 : Int) = 2025 then -1 else 0) :=
  normalize_adjacent_difference 2024 3 (by decide)

/-!
## Box-score stat coercion
-/

/-- C9: the box-score cell coercion is a total function: a cell whose
stripped text parses as an int yields that value, and every other cell —
empty, whitespace, the nbsp entity, or non-numeric — yields 0. -/
theorem parse_stat_total (s : String) :
    (∀ n : Int, pyInt? (stripChars s.toList) = some n → parse_stat s = n)
    ∧ (pyInt? (stripChars s.toList) = none → parse_stat s = 0) := by
  constructor
  · intro n h
    unfold parse_stat
    split
    · rw [h]
    · rename_i hc
      rcases not_and_or.mp hc with h1 | h1
      · rw [not_ne_iff.mp h1] at h
        exact Option.noConfusion h
      · rw [not_ne_iff.mp h1] at h
        exact Option.noConfusion ((by decide : pyInt? "&nbsp;".toList = none).symm.trans h)
  · intro h
    unfold parse_stat
    split
    · rw [h]
    · rfl

/-- Witness for parse_stat_total: a padded numeric cell and concrete
non-numeric cells. -/
theorem parse_stat_total_witness :
    parse_stat " 7 " = 7 ∧ parse_stat "" = 0 ∧ parse_stat "&nbsp;" = 0
    ∧ parse_stat "abc" = 0 := by
  refine ⟨(parse_stat_total " 7 ").1 7 (by decide),
    (parse_stat_total "").2 (by decide),
    (parse_stat_total "&nbsp;").2 (by decide),
    (parse_stat_total "abc").2 (by decide)⟩

/-!
## Concrete DOM fixtures
-/

/-- A cell holding a team-profile link. -/
def teamCellEss : Cell :=
  { text := "Essendon", teamAnchors := ["Essendon"],
    anchorHref := some "teams/essendon/idx.html" }

def teamCellRic : Cell :=
  { text := "Richmond", teamAnchors := ["Richmond"],
    anchorHref := some "teams/richmond/idx.html" }

/-- A cell with plain text and no anchors. -/
def plainCell (s : String) : Cell :=
  { text := s, teamAnchors := [], anchorHref := none }

/-- Home row with a parseable score in the third cell. -/
def rowEss : Row :=
  { cells := [teamCellEss, plainCell "15.10", plainCell "100", plainCell "MCG"],
    text := "Essendon 15.10 100 MCG" }

/-- Away row with a parseable score in the third cell. -/
def rowRic : Row :=
  { cells := [teamCellRic, plainCell "12.9", plainCell "81", plainCell "MCG"],
    text := "Richmond 12.9 81 MCG" }

/-- A row with no team link (for example a ladder or header row). -/
def rowPlain : Row :=
  { cells := [plainCell "Ladder"], text := "Ladder" }

/-- Home row whose score cell holds a dotted triple. -/
def rowEssDotted : Row :=
  { cells := [teamCellEss, plainCell "", plainCell "12.8.80", plainCell ""],
    text := "Essendon 12.8.80" }

/-- Away row whose score cell is empty. -/
def rowRicEmpty : Row :=
  { cells := [teamCellRic, plainCell "", plainCell "", plainCell ""],
    text := "Richmond" }

/-!
## C2 counterexample: the season-page dedup keeps a partial key
-/

/-- The game parse_season_page builds from rowEss/rowRic when no round is
known anywhere on the page: its round is None and its game_id omits the
round component. -/
def gNoRound : SGame :=
  { home_team := "Essendon", away_team := "Richmond", home_score := 100,
    away_score := 81, season := 2024, round := none, stats_link := none,
    game_id := "2024_Essendon_Richmond" }

/-- C2 counterexample: a provisional game missing its round — a natural
key component — is not dropped by parse_season_page's dedup; it is kept
under the partial game_id season_home_away. -/
theorem season_page_keeps_partial_key :
    parse_season_page_games 2024 [[rowEss, rowRic]] = [gNoRound]
    ∧ gNoRound.round = none := by
  exact ⟨by decide, rfl⟩

/-!
## C5 counterexample: _parse_game_rows coerces scores to 0
-/

/-- The game _parse_game_rows builds from a dotted-triple home score cell
and an empty away score cell. -/
def gCoerced : SGame :=
  { home_team := "Essendon", away_team := "Richmond", home_score := 0,
    away_score := 0, season := 2024, round := some 3, stats_link := none,
    game_id := "2024_r3_Essendon_Richmond" }

/-- C5 counterexample: the season-page row parser maps the dotted triple
12.8.80 to 0 (not the total 80) and an empty score cell to 0 (not null),
so the claimed score policy fails for this extractor. -/
theorem game_rows_score_coercion_counterexample :
    parse_game_rows rowEssDotted.cells rowRicEmpty.cells 2024 (some 3)
      = some gCoerced
    ∧ gCoerced.home_score = 0 ∧ gCoerced.away_score = 0 := by
  exact ⟨by decide, rfl, rfl⟩

/-!
## C6 counterexample: the season-page scan pairs fixed offsets only
-/

/-- C6 counterexample: in a qualifying table whose first row has no team
link, the two adjacent team-link rows that follow are never paired by
parse_season_page — its scan consumes rows at fixed offsets (0,1), (2,3)
instead of advancing by one past a non-qualifying row — although the
same two rows do form a game when paired directly. -/
theorem season_page_pairing_counterexample :
    rowEss.teamLink = some "Essendon"
    ∧ rowRic.teamLink = some "Richmond"
    ∧ rowPlain.teamLink = none
    ∧ 2 ≤ tableTeamLinks [rowPlain, rowEss, rowRic]
    ∧ (parse_game_rows rowEss.cells rowRic.cells 2024 none).isSome = true
    ∧ parse_season_page_games 2024 [[rowPlain, rowEss, rowRic]] = [] := by
  exact ⟨by decide, by decide, by decide, by decide, by decide, by decide⟩

/-!
## C3 counterexample: the working upsert overwrites a missing score

scrape_afl_data_to_database is the persistence path whose queries and
constructors use the columns the Game model really has, so it is the
path that actually writes. Its completed-game filter only drops a game
when BOTH parsed scores are 0; a game with one unparseable score cell
(coerced to 0 by _parse_game_rows) and one positive score passes the
filter, and the update branch (lines 110-117) then assigns both scores
unconditionally.
-/

theorem parse_results_table_valid (season : Int) (rnd : Option Int)
    (rows : List Row) :
    ∀ g ∈ parse_results_table season rnd rows,
      hasValidScores g = true ∧ g.is_finished = true := by
  induction rows using parse_results_table.induct season rnd with
  | case1 => intro g hg; simp [parse_results_table] at hg
  | case2 r rest hnone ih =>
    intro g hg
    rw [parse_results_table] at hg
    rw [hnone] at hg
    exact ih g hg
  | case3 r home hsome =>
    intro g hg
    rw [parse_results_table] at hg
    rw [hsome] at hg
    simp at hg
  | case4 r home hsome r2 rest2 away hsome2 d hvalid ih =>
    intro g hg
    rw [parse_results_table] at hg
    simp only [hsome, hsome2] at hg
    have hv : hasValidScores (extract_result_details r r2 season rnd) = true :=
      hvalid
    rw [if_pos hv] at hg
    rcases List.mem_cons.mp hg with h1 | h1
    · subst h1
      refine ⟨?_, rfl⟩
      simpa [hasValidScores] using hv
    · exact ih g h1
  | case5 r home hsome r2 rest2 away hsome2 d hvalid ih =>
    intro g hg
    rw [parse_results_table] at hg
    simp only [hsome, hsome2] at hg
    have hv : ¬hasValidScores (extract_result_details r r2 season rnd) = true :=
      hvalid
    rw [if_neg hv] at hg
    exact ih g hg
  | case6 r home hsome r2 rest2 hnone2 ih =>
    intro g hg
    rw [parse_results_table] at hg
    simp only [hsome, hnone2] at hg
    exact ih g hg

theorem parse_results_table_adjacent (season : Int) (rnd : Option Int)
    (rows : List Row) :
    ∀ g ∈ parse_results_table season rnd rows,
      ∃ i r1 r2, rows[i]? = some r1 ∧ rows[i + 1]? = some r2
        ∧ r1.teamLink = some g.home_team ∧ r2.teamLink = some g.away_team := by
  induction rows using parse_results_table.induct season rnd with
  | case1 => intro g hg; simp [parse_results_table] at hg
  | case2 r rest hnone ih =>
    intro g hg
    rw [parse_results_table] at hg
    rw [hnone] at hg
    rcases ih g hg with ⟨i, r1, r2, h1, h2, h3, h4⟩
    exact ⟨i + 1, r1, r2, by simpa using h1, by simpa using h2, h3, h4⟩
  | case3 r home hsome =>
    intro g hg
    rw [parse_results_table] at hg
    rw [hsome] at hg
    simp at hg
  | case4 r home hsome r2 rest2 away hsome2 d hvalid ih =>
    intro g hg
    rw [parse_results_table] at hg
    simp only [hsome, hsome2] at hg
    have hv : hasValidScores (extract_result_details r r2 season rnd) = true :=
      hvalid
    rw [if_pos hv] at hg
    rcases List.mem_cons.mp hg with h1 | h1
    · subst h1
      exact ⟨0, r, r2, by simp, by simp, by simpa using hsome,
        by simpa using hsome2⟩
    · rcases ih g h1 with ⟨i, r1, r2x, h1x, h2x, h3x, h4x⟩
      exact ⟨i + 2, r1, r2x, by simpa using h1x, by simpa using h2x, h3x, h4x⟩
  | case5 r home hsome r2 rest2 away hsome2 d hvalid ih =>
    intro g hg
    rw [parse_results_table] at hg
    simp only [hsome, hsome2] at hg
    have hv : ¬hasValidScores (extract_result_details r r2 season rnd) = true :=
      hvalid
    rw [if_neg hv] at hg
    rcases ih g hg with ⟨i, r1, r2x, h1x, h2x, h3x, h4x⟩
    exact ⟨i + 2, r1, r2x, by simpa using h1x, by simpa using h2x, h3x, h4x⟩
  | case6 r home hsome r2 rest2 hnone2 ih =>
    intro g hg
    rw [parse_results_table] at hg
    simp only [hsome, hnone2] at hg
    rcases ih g hg with ⟨i, r1, r2x, h1x, h2x, h3x, h4x⟩
    exact ⟨i + 1, r1, r2x, by simpa using h1x, by simpa using h2x, h3x, h4x⟩

theorem parse_results_table_advance_one (season : Int) (rnd : Option Int)
    (a b : Row) (rest : List Row)
    (ha : a.teamLink.isSome = true) (hb : b.teamLink = none) :
    parse_results_table season rnd (a :: b :: rest)
      = parse_results_table season rnd (b :: rest) := by
  rcases Option.isSome_iff_exists.mp ha with ⟨home, hh⟩
  rw [parse_results_table]
  simp only [hh, hb]

theorem pairRows_stride (season : Int) (cur : Option Int) (rows : List Row) :
    ∀ g ∈ pairRows season cur rows,
      ∃ k r1 r2, rows[2 * k]? = some r1 ∧ rows[2 * k + 1]? = some r2
        ∧ parse_game_rows r1.cells r2.cells season cur = some g := by
  induction rows using pairRows.induct season cur with
  | case1 h a rest g0 hp ih =>
    intro g hg
    rw [pairRows] at hg
    rw [hp] at hg
    rcases List.mem_cons.mp hg with h1 | h1
    · subst h1
      exact ⟨0, h, a, by simp, by simp, hp⟩
    · rcases ih g h1 with ⟨k, r1, r2, h1x, h2x, h3⟩
      refine ⟨k + 1, r1, r2, ?_, ?_, h3⟩
      · have he : 2 * (k + 1) = 2 * k + 1 + 1 := by ring
        rw [he]
        simpa using h1x
      · have he : 2 * (k + 1) + 1 = 2 * k + 1 + 1 + 1 := by ring
        rw [he]
        simpa using h2x
  | case2 h a rest hp ih =>
    intro g hg
    rw [pairRows] at hg
    rw [hp] at hg
    rcases ih g hg with ⟨k, r1, r2, h1x, h2x, h3⟩
    refine ⟨k + 1, r1, r2, ?_, ?_, h3⟩
    · have he : 2 * (k + 1) = 2 * k + 1 + 1 := by ring
      rw [he]
      simpa using h1x
    · have he : 2 * (k + 1) + 1 = 2 * k + 1 + 1 + 1 := by ring
      rw [he]
      simpa using h2x
  | case3 t ht =>
    intro g hg
    rcases t with _ | ⟨x, _ | ⟨y, rest⟩⟩
    · simp [pairRows] at hg
    · simp [pairRows] at hg
    · exact absurd rfl (fun heq => ht x y rest heq)

/-- C6 (amended): _parse_results_table pairs only adjacent rows — every
emitted game's home and away teams come from two consecutive rows, both
carrying team links — and when the row after a team-link row has no team
link the scan advances by exactly one row; parse_season_page, by
contrast, only ever pairs rows at even offsets (2k, 2k+1). -/
theorem results_table_adjacent_pairing :
    (∀ (season : Int) (rnd : Option Int) (rows : List Row) (g : RGame),
      g ∈ parse_results_table season rnd rows →
      ∃ i r1 r2, rows[i]? = some r1 ∧ rows[i + 1]? = some r2
        ∧ r1.teamLink = some g.home_team ∧ r2.teamLink = some g.away_team)
    ∧ (∀ (season : Int) (rnd : Option Int) (a b : Row) (rest : List Row),
      a.teamLink.isSome = true → b.teamLink = none →
      parse_results_table season rnd (a :: b :: rest)
        = parse_results_table season rnd (b :: rest))
    ∧ (∀ (season : Int) (cur : Option Int) (rows : List Row) (g : SGame),
      g ∈ pairRows season cur rows →
      ∃ k r1 r2, rows[2 * k]? = some r1 ∧ rows[2 * k + 1]? = some r2
        ∧ parse_game_rows r1.cells r2.cells season cur = some g) :=
  ⟨fun season rnd rows g hg => parse_results_table_adjacent season rnd rows g hg,
   fun season rnd a b rest ha hb =>
     parse_results_table_advance_one season rnd a b rest ha hb,
   fun season cur rows g hg => pairRows_stride season cur rows g hg⟩

/-- Witness for results_table_adjacent_pairing: the scan skips exactly one
non-qualifying row between two games. -/
theorem results_table_adjacent_pairing_witness :
    parse_results_table 2024 (some 3) [rowEss, rowPlain, rowRic]
      = parse_results_table 2024 (some 3) [rowPlain, rowRic] :=
  results_table_adjacent_pairing.2.1 2024 (some 3) rowEss rowPlain [rowRic]
    (by decide) (by decide)

/-!
## Score policy of the results scraper
-/

theorem extract_side_score_none (cells : List String)
    (h : ∀ c ∈ cells, score_from_cell c = none) :
    extract_side_score cells = none := by
  induction cells with
  | nil => rfl
  | cons c rest ih =>
    rw [extract_side_score]
    rw [h c (by simp)]
    exact ih (fun x hx => h x (List.mem_cons_of_mem c hx))

/-- C5 (amended): the results scraper's score extractor maps a dotted
triple to its total, a bare total of at most 3 digits to its value, and
an empty cell, a dash, or a row none of whose cells yields a score to
None; and every Game emitted by _parse_results_table has both sides
non-null and is_finished=true, so no persisted Game from this scraper
ever has a null side. -/
theorem results_score_policy :
    extract_side_score ["12.8.80"] = some 80
    ∧ extract_side_score ["80"] = some 80
    ∧ extract_side_score [""] = none
    ∧ extract_side_score ["-"] = none
    ∧ (∀ cells, (∀ c ∈ cells, score_from_cell c = none) →
        extract_side_score cells = none)
    ∧ (∀ (season : Int) (rnd : Option Int) (rows : List Row) (g : RGame),
        g ∈ parse_results_table season rnd rows →
        g.home_score.isSome = true ∧ g.away_score.isSome = true
          ∧ g.is_finished = true) := by
  refine ⟨by decide, by decide, by decide, by decide,
    extract_side_score_none, ?_⟩
  intro season rnd rows g hg
  have h := parse_results_table_valid season rnd rows g hg
  have h1 := h.1
  rw [hasValidScores, Bool.and_eq_true] at h1
  exact ⟨h1.1, h1.2, h.2⟩

/-- The game the results scraper builds from rowEss and rowRic. -/
def rgParsed : RGame :=
  { season := 2024, round := some 3, home_team := "Essendon",
    away_team := "Richmond", home_score := some 100, away_score := some 81,
    is_finished := true }

/-- Witness for results_score_policy: a score-free row yields None, and a
concrete parsed game has both sides present and finished. -/
theorem results_score_policy_witness :
    extract_side_score ["", "-"] = none
    ∧ ∃ g, g ∈ parse_results_table 2024 (some 3) [rowEss, rowRic]
      ∧ g.home_score.isSome = true ∧ g.away_score.isSome = true
        ∧ g.is_finished = true := by
  have hmem : rgParsed ∈ parse_results_table 2024 (some 3) [rowEss, rowRic] := by
    decide
  exact ⟨results_score_policy.2.2.2.2.1 ["", "-"] (by decide),
    ⟨rgParsed, hmem, results_score_policy.2.2.2.2.2 2024 (some 3)
      [rowEss, rowRic] rgParsed hmem⟩⟩

/-!
## Finished-flag monotonicity of the persistence paths
-/

theorem scrape_season_eq (pages : Int → Option (List SGame))
    (statsOf : String → Option (List (String × List PStat)))
    (dbFail : Int → Bool) (db : SDb) (y : Int) :
    scrape_season pages statsOf dbFail db y
      = if seasonOk pages dbFail y = true
        then (applySeason pages statsOf db y, true) else (db, false) := by
  unfold scrape_season seasonOk applySeason
  rcases h : pages y with _ | games
  · simp
  · by_cases hf : dbFail y = true <;> simp [hf]

theorem scrape_fold_aux (pages : Int → Option (List SGame))
    (statsOf : String → Option (List (String × List PStat)))
    (dbFail : Int → Bool) :
    ∀ (ys : List Int) (db : SDb) (res : RunResults),
      ys.foldl (fun acc y =>
          let r := scrape_season pages statsOf dbFail acc.1 y
          if r.2 then (r.1, { acc.2 with processed := acc.2.processed ++ [y] })
          else (r.1, { acc.2 with failed := acc.2.failed ++ [y] })) (db, res)
        = ((ys.filter (seasonOk pages dbFail)).foldl
            (applySeason pages statsOf) db,
           { processed := res.processed ++ ys.filter (seasonOk pages dbFail),
             failed := res.failed
               ++ ys.filter (fun y => !(seasonOk pages dbFail y)) }) := by
  intro ys
  induction ys with
  | nil => intro db res; simp
  | cons y ys ih =>
    intro db res
    rw [List.foldl_cons]
    by_cases hok : seasonOk pages dbFail y = true
    · have hstep : (let r := scrape_season pages statsOf dbFail (db, res).1 y
          if r.2 then
            ((r.1 : SDb),
              { (db, res).2 with processed := (db, res).2.processed ++ [y] })
          else (r.1, { (db, res).2 with failed := (db, res).2.failed ++ [y] }))
          = ((applySeason pages statsOf db y : SDb),
             ({ res with processed := res.processed ++ [y] } : RunResults)) := by
        simp [scrape_season_eq, hok]
      rw [hstep, ih]
      simp [List.filter_cons, hok]
    · have hstep : (let r := scrape_season pages statsOf dbFail (db, res).1 y
          if r.2 then
            ((r.1 : SDb),
              { (db, res).2 with processed := (db, res).2.processed ++ [y] })
          else (r.1, { (db, res).2 with failed := (db, res).2.failed ++ [y] }))
          = ((db : SDb),
             ({ res with failed := res.failed ++ [y] } : RunResults)) := by
        simp [scrape_season_eq, hok]
      rw [hstep, ih]
      simp [List.filter_cons, hok]

/-- C7: the multi-season run visits every year of the range in order and
classifies each as processed or failed; the final database is exactly the
committed effect of the successful seasons folded in order (failed
seasons contribute nothing, so earlier commits survive later failures
and later seasons are still processed); and a failing season — failed
page parse or database error, which rolls the season's transaction back —
returns the database unchanged. -/
theorem multi_season_failure_isolation (pages : Int → Option (List SGame))
    (statsOf : String → Option (List (String × List PStat)))
    (dbFail : Int → Bool) (db : SDb) (startY endY : Int) :
    scrape_multiple_seasons pages statsOf dbFail db startY endY
      = (((yearRange startY endY).filter (seasonOk pages dbFail)).foldl
            (applySeason pages statsOf) db,
         { processed := (yearRange startY endY).filter (seasonOk pages dbFail),
           failed := (yearRange startY endY).filter
             (fun y => !(seasonOk pages dbFail y)) })
    ∧ (∀ (y : Int) (db2 : SDb), seasonOk pages dbFail y = false →
        scrape_season pages statsOf dbFail db2 y = (db2, false)) := by
  constructor
  · unfold scrape_multiple_seasons
    rw [scrape_fold_aux pages statsOf dbFail (yearRange startY endY) db ⟨[], []⟩]
    simp
  · intro y db2 hbad
    rw [scrape_season_eq, hbad]
    simp

/-- Witness for multi_season_failure_isolation: with every page fetch
failing, the 2020 season leaves the empty database untouched. -/
theorem multi_season_failure_isolation_witness :
    scrape_season (fun _ => none) (fun _ => none) (fun _ => false)
      ⟨[], []⟩ 2020 = (⟨[], []⟩, false) :=
  (multi_season_failure_isolation (fun _ => none) (fun _ => none)
    (fun _ => false) ⟨[], []⟩ 2020 2021).2 2020 ⟨[], []⟩ rfl

end FootyBets
